import Mathlib

/-!
Shallow embedding of the `mommyrag` repository (src/app.py and src/ingest.py):
a small retrieval-augmented-generation HTTP service with a lexical fallback.
External collaborators (the retriever of the vector store and the chat-completion
model) are parameters of the embedding; the orchestration logic of the
`/chat` handler, the lazy chain initialization, the credential checks at
startup and the `GET /` handler are translated from the source.
-/

namespace MommyRag

/-- A single-quote character as a string, used inside the string literals
taken verbatim from the source. -/
def apos : String := String.singleton (Char.ofNat 39)

/-- ASCII case-folding of one character, as Python `str.lower` acts on the
ASCII range (the only range exercised by the fixed phrase list). -/
def lowerChar (c : Char) : Char :=
  if 65 ≤ c.toNat ∧ c.toNat ≤ 90 then Char.ofNat (c.toNat + 32) else c

/-- `answer.lower()` from src/app.py line 88 (ASCII range). -/
def pyLower (s : String) : String := ⟨s.data.map lowerChar⟩

/-- Python `str.strip` whitespace set (space, tab, newline, CR, VT, FF). -/
def isPySpace (c : Char) : Bool :=
  c = ' ' || c = '\t' || c = '\n' || c = '\r' || c = '\x0b' || c = '\x0c'

/-- `.strip()` from src/app.py line 88: drop whitespace at both ends. -/
def pyStrip (s : String) : String :=
  ⟨((s.data.dropWhile isPySpace).reverse.dropWhile isPySpace).reverse⟩

/-- Substring test on character lists: `isSubList needle hay` holds when
`needle` occurs contiguously inside `hay`. -/
def isSubList (needle : List Char) : List Char → Bool
  | [] => needle.isEmpty
  | c :: rest => needle.isPrefixOf (c :: rest) || isSubList needle rest

/-- The Python substring operator on strings, `needle in hay`. -/
def strContains (hay needle : String) : Bool := isSubList needle.data hay.data

/-- The `dont_know_phrases` list, src/app.py lines 89-104.  The source has no
comma between the last two entries, so Python adjacent-literal
concatenation fuses the two intended final entries into one single string
with no separator between them. -/
def dont_know_phrases : List String :=
  [ "i don" ++ apos ++ "t know"
  , "i do not know"
  , "don" ++ apos ++ "t know"
  , "i don" ++ apos ++ "t have"
  , "i do not have"
  , "i" ++ apos ++ "m sorry, i don" ++ apos ++ "t know"
  , "i don" ++ apos ++ "t have information"
  , "i cannot answer"
  , "i can" ++ apos ++ "t answer"
  , "i" ++ apos ++ "m sorry"
  , "sorry, i don" ++ apos ++ "t"
  , "unable to answer"
  , "i" ++ apos ++ "m not able to" ++ "i" ++ apos ++ "m not sure" ]

/-- src/app.py lines 88 and 107: lower-case, strip, then test every phrase
with the Python `in` operator. -/
def should_fallback (answer : String) : Bool :=
  dont_know_phrases.any (fun phrase => strContains (pyStrip (pyLower answer)) phrase)

/-- A retrieved document; only `page_content` is consumed by the service. -/
structure Doc where
  page_content : String
deriving DecidableEq

/-- `format_docs`, src/app.py lines 50-51: join the page contents with a
blank line. -/
def format_docs (docs : List Doc) : String :=
  String.intercalate "\n\n" (docs.map Doc.page_content)

/-- Fixed part of the RAG template before the context, src/app.py
lines 35-38. -/
def ragTemplatePre : String :=
  "Use the following pieces of context to answer the question.\nIf you don" ++
  apos ++ "t know the answer, say I don" ++ apos ++ "t know.\n\nContext: "

/-- The RAG prompt of src/app.py lines 35-44, with `{context}` and
`{question}` substituted. -/
def ragPrompt (context question : String) : String :=
  ragTemplatePre ++ context ++ "\n\nQuestion: " ++ question ++ "\n\nHelpful Answer: "

/-- The fallback prompt of src/app.py line 61, with `{question}`
substituted. -/
def fallbackPrompt (question : String) : String :=
  "Answer the following question directly:\n\nQuestion: " ++ question ++ "\n\nAnswer:"

/-- The literal prefix of src/app.py line 115 (`f"Helpful Answer: V1 {answer}"`). -/
def helpfulV1 : String := "Helpful Answer: V1 "

/-- The external world as the `/chat` handler sees it: lazy chain
initialization (FAISS load), the retriever, and the completion model.  Each
step may raise, modelled by `Except` carrying the exception message. -/
structure Env where
  initChains : Except String Unit
  retrieve : String → Except String (List Doc)
  complete : String → Except String String

/-- What the `chat` handler returns: either the success payload
`{"answer": a}` or the error tuple `({"error": e}, 500)` of src/app.py
lines 115-118. -/
inductive ChatResult
  | ok (answer : String)
  | err (message : String) (attemptedStatus : Nat)
deriving DecidableEq

/-- The `/chat` handler, src/app.py lines 76-118, instrumented with the list
of prompts sent to the completion model (in call order). -/
def chatT (env : Env) (question : String) : ChatResult × List String :=
  match env.initChains with
  | .error e => (.err e 500, [])
  | .ok _ =>
    match env.retrieve question with
    | .error e => (.err e 500, [])
    | .ok docs =>
      let p1 := ragPrompt (format_docs docs) question
      match env.complete p1 with
      | .error e => (.err e 500, [p1])
      | .ok answer =>
        if should_fallback answer then
          let p2 := fallbackPrompt question
          match env.complete p2 with
          | .error e => (.err e 500, [p1, p2])
          | .ok answer2 => (.ok (helpfulV1 ++ answer2), [p1, p2])
        else
          (.ok (helpfulV1 ++ answer), [p1])

/-- Return value of the `/chat` handler. -/
def chat (env : Env) (question : String) : ChatResult := (chatT env question).1

/-- An environment in which no external call fails. -/
def pureEnv (r : String → List Doc) (c : String → String) : Env :=
  ⟨.ok (), fun q => .ok (r q), fun p => .ok (c p)⟩

/-- Modelled from the spec: the surrounding HTTP response mechanism is not
in src/ (it is the web framework).  Per the spec, returning the error tuple
does not change the HTTP status: "the attempted accompanying HTTP status
code of 500 is not actually honored by the surrounding response mechanism",
errors being silently downgraded to 200 responses. -/
def responseStatus : ChatResult → Nat
  | .ok _ => 200
  | .err _ _ => 200

/-- The module-level globals `rag_chain` and `fallback_chain` of src/app.py
lines 19-20, both `None` at startup.  `C` abstracts the runnable-chain
objects the source builds from the external libraries. -/
structure AppState (C : Type) where
  rag_chain : Option C
  fallback_chain : Option C

/-- What one construction pass of src/app.py lines 26-62 would build: the
RAG chain and the fallback chain (deterministic in the external world,
which this structure abstracts). -/
structure InitEnv (C : Type) where
  buildRag : C
  buildFallback : C

/-- `get_rag_chain`, src/app.py lines 22-65: if `rag_chain is None`,
construct both chains and store them in the globals; always return the pair
of globals.  The `Bool` records whether construction ran on this call. -/
def get_rag_chain (env : InitEnv C) (s : AppState C) :
    AppState C × ((Option C × Option C) × Bool) :=
  if s.rag_chain.isNone then
    ((AppState.mk (some env.buildRag) (some env.buildFallback)),
      ((some env.buildRag, some env.buildFallback), true))
  else
    (s, ((s.rag_chain, s.fallback_chain), false))

/-- The message of the `EnvironmentError` raised by src/ingest.py line 9
when `OPENAI_API_KEY` is absent. -/
def ingestKeyError : String := "请先设置 OPENAI_API_KEY 环境变量"

/-- The external steps of the indexer: loading `data.txt`, splitting it,
and embedding plus saving the index (src/ingest.py lines 12-24). -/
structure IngestEnv where
  loadDocuments : Except String (List String)
  splitDocuments : List String → List String
  buildAndSaveIndex : List String → Except String Unit

/-- src/ingest.py top to bottom: key check first (raising when the key is
absent, before anything else runs), then load, split, embed and save. -/
def ingest (hasKey : Bool) (env : IngestEnv) : Except String Unit :=
  if hasKey then
    match env.loadDocuments with
    | .error e => .error e
    | .ok documents => env.buildAndSaveIndex (env.splitDocuments documents)
  else
    .error ingestKeyError

/-- The warning printed by src/app.py line 13 when the key is absent. -/
def keyWarning : String :=
  "⚠️  WARNING: OPENAI_API_KEY environment variable not set. Chat functionality will fail."

/-- The message printed by src/app.py line 15 when the key is present. -/
def keySetMsg : String := "✅ OPENAI_API_KEY is set"

/-- Module load of src/app.py lines 10-15: print a message depending on the
presence of the key and in every case go on to expose the `chat` handler. -/
def app_startup (hasKey : Bool) : String × (Env → String → ChatResult) :=
  (if hasKey then keySetMsg else keyWarning, chat)

/-- The `GET /` handler, src/app.py lines 72-74, threaded through the
process state to make its absence of effects explicit: it returns a fixed
payload and the state unchanged. -/
def read_root (s : AppState C) : List (String × String) × AppState C :=
  ([("message", "Mommy Application is live!"), ("version", "v2")], s)

/-- Completion model for the C1 counterexample: the primary (RAG) prompt is
answered with the already-prefixed refusal, the fallback prompt with the
bare refusal. -/
def cexComplete (p : String) : String :=
  if p = fallbackPrompt "q" then "i" ++ apos ++ "m sorry"
  else "Helpful Answer: V1 i" ++ apos ++ "m sorry"

/-- Counterexample environment for C1: empty retrieval, `cexComplete`. -/
def cexEnv : Env := pureEnv (fun _ => []) cexComplete

/-- Witness completion model: every prompt is answered with a refusal. -/
def refuseAll (_ : String) : String := "i don" ++ apos ++ "t know"

/-- Completion model answering every prompt with the same plain sentence. -/
def plainAnswer (_ : String) : String := "The answer is 4."

/-- An environment whose retrieval step fails with a fixed message. -/
def failEnv : Env :=
  ⟨Except.ok (), fun _ => Except.error "boom", fun _ => Except.ok "x"⟩

/-- `responseStatus` never reports anything but 200 (spec-modelled framework
behaviour: the attempted status in the error tuple is ignored). -/
theorem responseStatus_eq (x : ChatResult) : responseStatus x = 200 := by
  cases x <;> rfl

/-- The fallback prompt is never the same string as the RAG prompt: their
lengths differ for every context and question. -/
theorem fallbackPrompt_ne_ragPrompt (c q : String) :
    fallbackPrompt q ≠ ragPrompt c q := by
  intro h
  have hl := congrArg String.length h
  rw [fallbackPrompt, ragPrompt] at hl
  simp only [String.length_append] at hl
  have e1 : ("Answer the following question directly:\n\nQuestion: ").length = 51 := by decide
  have e2 : ("\n\nAnswer:").length = 9 := by decide
  have e3 : ragTemplatePre.length = 118 := by decide
  have e4 : ("\n\nQuestion: ").length = 12 := by decide
  have e5 : ("\n\nHelpful Answer: ").length = 18 := by decide
  rw [e1, e2, e3, e4, e5] at hl
  omega

/-- C1, counterexample to the claim as stated: with empty retrieval and a
completion model that answers the RAG prompt with the already-prefixed
refusal and the fallback prompt with the bare refusal, the primary answer
triggers the fallback, yet the returned payload equals `ok` of the primary
answer (so it does not differ from it) and is not `ok` of the result of the
fallback invocation (the fixed prefix is prepended). -/
theorem fallback_literal_counterexample :
    should_fallback (cexComplete (ragPrompt (format_docs []) "q")) = true ∧
    chat cexEnv "q" = ChatResult.ok (cexComplete (ragPrompt (format_docs []) "q")) ∧
    chat cexEnv "q" ≠ ChatResult.ok (cexComplete (fallbackPrompt "q")) := by
  decide

/-- C1 (amended): when the primary answer, lower-cased and stripped,
contains one of the fixed refusal substrings, the fallback prompt is
invoked and the returned answer is the fixed prefix prepended to the result
of the fallback invocation (which may coincide with the primary answer
and carries the prefix the spec lists separately). -/
theorem fallback_on_refusal (r : String → List Doc) (c : String → String)
    (q : String)
    (h : should_fallback (c (ragPrompt (format_docs (r q)) q)) = true) :
    chatT (pureEnv r c) q =
      (ChatResult.ok (helpfulV1 ++ c (fallbackPrompt q)),
        [ragPrompt (format_docs (r q)) q, fallbackPrompt q]) := by
  simp [chatT, pureEnv, h]

/-- Witness for the amended C1 theorem at a concrete refusing model. -/
theorem fallback_on_refusal_witness :
    chatT (pureEnv (fun _ => []) refuseAll) "q" =
      (ChatResult.ok (helpfulV1 ++ refuseAll (fallbackPrompt "q")),
        [ragPrompt (format_docs ([] : List Doc)) "q", fallbackPrompt "q"]) :=
  fallback_on_refusal (fun _ => []) refuseAll "q" (by decide)

/-- C2: when the primary answer, lower-cased and stripped, contains none of
the refusal substrings, the returned answer is the primary answer with the
fixed prefix prepended, and the only completion call is the primary one
(the fallback is not invoked). -/
theorem no_fallback_keeps_primary (r : String → List Doc) (c : String → String)
    (q : String)
    (h : should_fallback (c (ragPrompt (format_docs (r q)) q)) = false) :
    chatT (pureEnv r c) q =
      (ChatResult.ok (helpfulV1 ++ c (ragPrompt (format_docs (r q)) q)),
        [ragPrompt (format_docs (r q)) q]) := by
  simp [chatT, pureEnv, h]

/-- Witness for C2 at a concrete non-refusing model. -/
theorem no_fallback_keeps_primary_witness :
    chatT (pureEnv (fun _ => []) plainAnswer) "q" =
      (ChatResult.ok (helpfulV1 ++ plainAnswer (ragPrompt (format_docs ([] : List Doc)) "q")),
        [ragPrompt (format_docs ([] : List Doc)) "q"]) :=
  no_fallback_keeps_primary (fun _ => []) plainAnswer "q" (by decide)

/-- C3: the answer of every success payload begins with the literal
"Helpful Answer: V1 ", on the primary and on the fallback path. -/
theorem answer_has_fixed_prefix (env : Env) (q a : String)
    (h : chat env q = ChatResult.ok a) : ∃ rest, a = helpfulV1 ++ rest := by
  unfold chat chatT at h
  cases hi : env.initChains <;> simp [hi] at h
  cases hr : env.retrieve q <;> simp [hr] at h
  case ok docs =>
  cases hc : env.complete (ragPrompt (format_docs docs) q) <;> simp [hc] at h
  case ok answer =>
  by_cases hf : should_fallback answer = true
  · simp [hf] at h
    cases hc2 : env.complete (fallbackPrompt q) <;> simp [hc2] at h
    exact ⟨_, h.symm⟩
  · simp [hf] at h
    exact ⟨answer, h.symm⟩

/-- Witness for C3 at a concrete run. -/
theorem answer_has_fixed_prefix_witness :
    ∃ rest, "Helpful Answer: V1 The answer is 4." = helpfulV1 ++ rest :=
  answer_has_fixed_prefix (pureEnv (fun _ => []) plainAnswer) "q"
    "Helpful Answer: V1 The answer is 4." (by decide)

/-- C4: whenever the handler returns the error shape, the attempted status
is 500, the message is one raised by lazy initialization, retrieval or a
completion call, and the (spec-modelled) response mechanism still reports
200; the handler is a total function, so no exception escapes it. -/
theorem chat_error_policy (env : Env) (q e : String) (st : Nat)
    (h : chat env q = ChatResult.err e st) :
    st = 500 ∧ responseStatus (chat env q) = 200 ∧
      (env.initChains = Except.error e ∨ env.retrieve q = Except.error e ∨
        ∃ p, env.complete p = Except.error e) := by
  unfold chat chatT at h
  cases hi : env.initChains <;> simp [hi] at h
  case error e1 =>
    obtain ⟨he, hst⟩ := h
    subst he
    exact ⟨hst.symm, responseStatus_eq _, Or.inl rfl⟩
  case ok u =>
  cases hr : env.retrieve q <;> simp [hr] at h
  case error e1 =>
    obtain ⟨he, hst⟩ := h
    subst he
    exact ⟨hst.symm, responseStatus_eq _, Or.inr (Or.inl rfl)⟩
  case ok docs =>
  cases hc : env.complete (ragPrompt (format_docs docs) q) <;> simp [hc] at h
  case error e1 =>
    obtain ⟨he, hst⟩ := h
    subst he
    exact ⟨hst.symm, responseStatus_eq _, Or.inr (Or.inr ⟨_, hc⟩)⟩
  case ok answer =>
  by_cases hf : should_fallback answer = true
  · simp [hf] at h
    cases hc2 : env.complete (fallbackPrompt q) <;> simp [hc2] at h
    obtain ⟨he, hst⟩ := h
    subst he
    exact ⟨hst.symm, responseStatus_eq _, Or.inr (Or.inr ⟨_, hc2⟩)⟩
  · simp [hf] at h

/-- Witness for C4 at a concrete failing retrieval. -/
theorem chat_error_policy_witness :
    (500 : Nat) = 500 ∧ responseStatus (chat failEnv "q") = 200 ∧
      (failEnv.initChains = Except.error "boom" ∨
        failEnv.retrieve "q" = Except.error "boom" ∨
        ∃ p, failEnv.complete p = Except.error "boom") :=
  chat_error_policy failEnv "q" "boom" 500 (by decide)

/-- C5: the phrase list has 13 entries, its last entry is the concatenation
the fusion of the two intended final entries (the missing separator of
src/app.py lines 102-103), so an answer that is exactly the not-sure or the
not-able-to phrase contains an intended phrase yet does not trigger the
fallback, and
the service returns it with the prefix. -/
theorem phrase_list_concat_slip :
    dont_know_phrases.length = 13 ∧
    dont_know_phrases.getLast? =
      some ("i" ++ apos ++ "m not able toi" ++ apos ++ "m not sure") ∧
    strContains (pyStrip (pyLower ("I" ++ apos ++ "m not sure")))
      ("i" ++ apos ++ "m not sure") = true ∧
    strContains (pyStrip (pyLower ("I" ++ apos ++ "m not able to")))
      ("i" ++ apos ++ "m not able to") = true ∧
    should_fallback ("I" ++ apos ++ "m not sure") = false ∧
    should_fallback ("I" ++ apos ++ "m not able to") = false ∧
    chat (pureEnv (fun _ => []) (fun _ => "I" ++ apos ++ "m not sure")) "q" =
      ChatResult.ok ("Helpful Answer: V1 I" ++ apos ++ "m not sure") := by
  decide

/-- C6: with the credential absent the indexer fails at once — with the
fixed message, independently of the corpus and index collaborators, so
before reading the corpus or touching the index — while the query service
only emits a warning and exposes the same chat handler as when the
credential is present. -/
theorem credential_policy_split (envA envB : IngestEnv) :
    ingest false envA = Except.error ingestKeyError ∧
    ingest false envA = ingest false envB ∧
    app_startup false = (keyWarning, chat) ∧
    (app_startup false).2 = (app_startup true).2 :=
  ⟨rfl, rfl, rfl, rfl⟩

/-- C7: from the fresh state both globals are populated on the first call
(which constructs), and calling `get_rag_chain` again on the state any call
leaves behind performs no construction and returns the same state and the
same cached pair. -/
theorem get_rag_chain_idem (C : Type) (env : InitEnv C) (s : AppState C) :
    (get_rag_chain env (AppState.mk none none)).2.2 = true ∧
    (get_rag_chain env (AppState.mk none none)).1 =
      AppState.mk (some env.buildRag) (some env.buildFallback) ∧
    (get_rag_chain env ((get_rag_chain env s).1)).1 = (get_rag_chain env s).1 ∧
    (get_rag_chain env ((get_rag_chain env s).1)).2.1 = (get_rag_chain env s).2.1 ∧
    (get_rag_chain env ((get_rag_chain env s).1)).2.2 = false := by
  obtain ⟨rc, fc⟩ := s
  cases rc <;> simp [get_rag_chain]

/-- C8: the context handed to the augmented prompt is the retrieved chunk
texts joined with a blank line (the empty string for zero chunks), and the
primary completion call — the RAG prompt — is always issued exactly once,
as the first call, before any fallback decision: the prompt trace is either
just the RAG prompt or the RAG prompt followed by the (distinct) fallback
prompt. -/
theorem context_concatenation (env : Env) (q : String) (docs : List Doc)
    (hinit : env.initChains = Except.ok ()) (h : env.retrieve q = Except.ok docs) :
    format_docs docs = String.intercalate "\n\n" (docs.map Doc.page_content) ∧
    format_docs [] = "" ∧
    ((chatT env q).2 = [ragPrompt (format_docs docs) q] ∨
      ((chatT env q).2 = [ragPrompt (format_docs docs) q, fallbackPrompt q] ∧
        fallbackPrompt q ≠ ragPrompt (format_docs docs) q)) := by
  refine ⟨rfl, rfl, ?_⟩
  unfold chatT
  simp only [hinit, h]
  cases hc : env.complete (ragPrompt (format_docs docs) q) <;> try simp
  case ok answer =>
  by_cases hf : should_fallback answer = true
  · cases hc2 : env.complete (fallbackPrompt q) <;>
      simp [hf, hc2, fallbackPrompt_ne_ragPrompt]
  · simp [hf]

/-- Witness for C8 at a concrete run with zero retrieved chunks. -/
theorem context_concatenation_witness :
    format_docs [] = String.intercalate "\n\n" (([] : List Doc).map Doc.page_content) ∧
    format_docs [] = "" ∧
    ((chatT (pureEnv (fun _ => []) plainAnswer) "q").2 =
        [ragPrompt (format_docs []) "q"] ∨
      ((chatT (pureEnv (fun _ => []) plainAnswer) "q").2 =
          [ragPrompt (format_docs []) "q", fallbackPrompt "q"] ∧
        fallbackPrompt "q" ≠ ragPrompt (format_docs []) "q")) :=
  context_concatenation (pureEnv (fun _ => []) plainAnswer) "q" [] rfl rfl

/-- C9: the `GET /` handler returns the fixed identity payload, leaves the
process state untouched, and always succeeds (it is a total function). -/
theorem read_root_constant (C : Type) (s : AppState C) :
    read_root s =
      ([("message", "Mommy Application is live!"), ("version", "v2")], s) := rfl

/-- C10: at most two prompts ever reach the completion model on one `/chat`
request, and when the fallback runs its answer is returned with the prefix
as-is — it is not tested against the refusal list, whatever it contains. -/
theorem completion_call_bound (env : Env) (q : String) :
    (chatT env q).2.length ≤ 2 ∧
    (∀ (r : String → List Doc) (c : String → String), env = pureEnv r c →
      should_fallback (c (ragPrompt (format_docs (r q)) q)) = true →
      chat env q = ChatResult.ok (helpfulV1 ++ c (fallbackPrompt q))) := by
  constructor
  · unfold chatT
    cases hi : env.initChains <;> try simp
    case ok u =>
    cases hr : env.retrieve q <;> try simp
    case ok docs =>
    cases hc : env.complete (ragPrompt (format_docs docs) q) <;> try simp
    case ok answer =>
    by_cases hf : should_fallback answer = true
    · cases hc2 : env.complete (fallbackPrompt q) <;> simp [hf, hc2]
    · simp [hf]
  · rintro r c rfl hf
    simp [chat, chatT, pureEnv, hf]

/-- Witness for C10: a model that answers even the fallback prompt with a
refusal still sees its fallback answer returned, prefixed. -/
theorem completion_call_bound_witness :
    (chatT (pureEnv (fun _ => []) refuseAll) "q").2.length ≤ 2 ∧
    chat (pureEnv (fun _ => []) refuseAll) "q" =
      ChatResult.ok (helpfulV1 ++ refuseAll (fallbackPrompt "q")) :=
  ⟨(completion_call_bound (pureEnv (fun _ => []) refuseAll) "q").1,
    (completion_call_bound (pureEnv (fun _ => []) refuseAll) "q").2
      (fun _ => []) refuseAll rfl (by decide)⟩

end MommyRag
